import Mathlib

/-!
Shallow embedding of the run-filter matching engine and the
experiment-compilation pipeline of `rebench/configurator.py`
(the `_VMFilter` / `_SuiteFilter` / `_BenchmarkFilter` / `_RunFilter`
classes and the `Configurator` class).

Python errors are modelled with an explicit error type `PyError` and
`Except`-valued functions; Python strings are Lean `String`s; Python
dicts (insertion ordered) are association lists `List (String × α)`.
-/

/-- Decidable equality for `Except`, so the embedded fallible functions
can be evaluated on concrete inputs by `decide`. -/
instance {ε α : Type} [DecidableEq ε] [DecidableEq α] : DecidableEq (Except ε α) := fun a b =>
  match a, b with
  | Except.error e, Except.error f => decidable_of_iff (e = f) (by simp)
  | Except.error _, Except.ok _ => isFalse (by simp)
  | Except.ok _, Except.error _ => isFalse (by simp)
  | Except.ok x, Except.ok y => decidable_of_iff (x = y) (by simp)

/-- The Python errors the embedded code can raise:
`Exception(msg)` in `_RunFilter.__init__`, `IndexError` from `parts[1]`
on a too-short list, `ValueError(msg)` in `_compile_experiments`, and
`KeyError(key)` from a dict lookup with a missing key. -/
inductive PyError where
  | exception (msg : String)
  | indexError
  | valueError (msg : String)
  | keyError (key : String)
deriving DecidableEq

/-- Embedding of Python `str.split` with a one-character separator and no
limit, on the character list of the string: `"".split(":") == [""]`,
`"a:b".split(":") == ["a", "b"]`, `":".split(":") == ["", ""]`. -/
def pySplit (sep : Char) : List Char → List (List Char)
  | [] => [[]]
  | c :: rest =>
    let r := pySplit sep rest
    if c = sep then [] :: r
    else
      match r with
      | [] => [[c]]
      | g :: gs => (c :: g) :: gs

/-- `run_filter.split(":")` from `_RunFilter.__init__`. -/
def splitColon (s : String) : List String :=
  (pySplit ':' s.toList).map (fun cs => String.mk cs)

/-- The benchmark's virtual machine, of which the filters read `vm.name`. -/
structure VM where
  name : String
deriving DecidableEq

/-- The benchmark's suite, of which the filters read `suite.name`. -/
structure Suite where
  name : String
deriving DecidableEq

/-- The benchmark identity a filter is matched against: the code reads
`bench.vm.name`, `bench.suite.name` and `bench.name`. -/
structure Bench where
  vm : VM
  suite : Suite
  name : String
deriving DecidableEq

/-- The three matcher classes `_VMFilter(name)`, `_SuiteFilter(name)` and
`_BenchmarkFilter(suite_name, benchmark_name)` as a closed set of
variants, each holding exactly the constructor arguments the Python
classes store. -/
inductive Matcher where
  | vmFilter (name : String)
  | suiteFilter (name : String)
  | benchmarkFilter (suite_name benchmark_name : String)
deriving DecidableEq

/-- `_SuiteFilter.matches`: `bench.suite.name == self._name`.  Shared
helper because `_BenchmarkFilter.matches` calls it via `super()`. -/
def suiteMatches (name : String) (bench : Bench) : Bool :=
  bench.suite.name = name

/-- The `matches` method of each filter class:
`_VMFilter.matches` is `bench.vm.name == self._name`;
`_SuiteFilter.matches` is `suiteMatches`;
`_BenchmarkFilter.matches` first delegates to the superclass suite check
and returns `False` on failure, then compares `bench.name` with the
stored benchmark name. -/
def Matcher.matches : Matcher → Bench → Bool
  | .vmFilter name, bench => bench.vm.name = name
  | .suiteFilter name, bench => suiteMatches name bench
  | .benchmarkFilter suite_name benchmark_name, bench =>
    if !(suiteMatches suite_name bench) then false
    else bench.name = benchmark_name

/-- `_RunFilter`: the two matcher buckets `self._vm_filters` and
`self._suite_filters`, in append order. -/
structure RunFilter where
  vm_filters : List Matcher
  suite_filters : List Matcher
deriving DecidableEq

/-- The state of a `_RunFilter` right after `self._vm_filters = []` and
`self._suite_filters = []`. -/
def RunFilter.empty : RunFilter := ⟨[], []⟩

/-- One iteration of the parsing loop in `_RunFilter.__init__`:
`parts = run_filter.split(":")`; if `parts[0] == "vm"` append
`_VMFilter(parts[1])` (where `parts[1]` raises `IndexError` when absent);
elif `parts[0] == "s" and len(parts) == 2` append `_SuiteFilter(parts[1])`;
elif `parts[0] == "s" and len(parts) == 3` append
`_BenchmarkFilter(parts[1], parts[2])`; else raise
`Exception("Unknown filter expression: " + run_filter)`. -/
def RunFilter.addToken (rf : RunFilter) (t : String) : Except PyError RunFilter :=
  let parts := splitColon t
  if parts.headD "" = "vm" then
    match parts.get? 1 with
    | some name =>
      Except.ok { rf with vm_filters := rf.vm_filters ++ [Matcher.vmFilter name] }
    | none => Except.error PyError.indexError
  else if parts.headD "" = "s" ∧ parts.length = 2 then
    Except.ok { rf with suite_filters := rf.suite_filters ++ [Matcher.suiteFilter (parts.getD 1 "")] }
  else if parts.headD "" = "s" ∧ parts.length = 3 then
    Except.ok { rf with suite_filters :=
      rf.suite_filters ++ [Matcher.benchmarkFilter (parts.getD 1 "") (parts.getD 2 "")] }
  else
    Except.error (PyError.exception ("Unknown filter expression: " ++ t))

/-- The `for run_filter in run_filters` loop of `_RunFilter.__init__`,
aborting at the first raised error. -/
def RunFilter.initLoop : RunFilter → List String → Except PyError RunFilter
  | rf, [] => Except.ok rf
  | rf, t :: rest => do
    let rf2 ← RunFilter.addToken rf t
    RunFilter.initLoop rf2 rest

/-- `_RunFilter.__init__(run_filters)`: `None` is modelled as `none`;
`if not run_filters: return` makes both `none` and the empty list yield
the empty filter, otherwise the loop runs over the tokens. -/
def RunFilter.init (run_filters : Option (List String)) : Except PyError RunFilter :=
  match run_filters with
  | none => Except.ok RunFilter.empty
  | some [] => Except.ok RunFilter.empty
  | some filters => RunFilter.initLoop RunFilter.empty filters

/-- `_RunFilter._match(filters, bench)`: `True` on an empty bucket, else
`True` iff some filter in the bucket matches (the loop returns at the
first match). -/
def RunFilter.matchFilters (filters : List Matcher) (bench : Bench) : Bool :=
  if filters.isEmpty then true
  else filters.any (fun f => f.matches bench)

/-- `_RunFilter.applies(bench)`: conjunction of `_match` on the VM bucket
and `_match` on the suite/benchmark bucket. -/
def RunFilter.applies (rf : RunFilter) (bench : Bench) : Bool :=
  RunFilter.matchFilters rf.vm_filters bench &&
    RunFilter.matchFilters rf.suite_filters bench

/-- An experiment definition from the configuration document; its
contents are opaque to the embedded code, which only passes it on. -/
structure ExpDef where
  raw : String
deriving DecidableEq

/-- The part of the validated raw configuration the embedded pipeline
reads: the `standard_experiment` entry (whose value may be null, modelled
as `none`) and the `experiments` mapping, an insertion-ordered dict
modelled as an association list. -/
structure RawConfig where
  standard_experiment : Option String
  experiments : List (String × ExpDef)
deriving DecidableEq

/-- Python dict lookup `m[key]` on the association-list model, returning
`none` where Python raises `KeyError`. -/
def dictLookup {α : Type} : List (String × α) → String → Option α
  | [], _ => none
  | (k, v) :: rest, key => if k = key then some v else dictLookup rest key

/-- Python truthiness of an optional string: `None` and `""` are falsy. -/
def strFalsy : Option String → Bool
  | none => true
  | some s => s = ""

/-- `Configurator.experiment_name`:
`self._exp_name or self._raw_config['standard_experiment']` — the
CLI-supplied name when it is truthy, otherwise the configuration's
`standard_experiment` value. -/
def experimentName (exp_name : Option String) (rc : RawConfig) : Option String :=
  match exp_name with
  | some s => if s = "" then rc.standard_experiment else some s
  | none => rc.standard_experiment

/-- The compiled experiment produced by `Configurator._compile_experiment`:
it delegates to the external `Experiment` constructor; we record the
experiment name, its definition and the run filter passed along (the
remaining arguments — runs config, VM table, suite table, reporting,
data store, build-command cache, data file, clean flag, reporter,
options — are opaque collaborator inputs not read by the claims). -/
structure Experiment where
  name : String
  exp_def : ExpDef
  run_filter : RunFilter
deriving DecidableEq

/-- `Configurator._compile_experiment(exp_name, ...)`:
`exp_def = self._raw_config['experiments'][exp_name]` (a dict lookup that
raises `KeyError` when absent), then construction of the `Experiment`. -/
def _compile_experiment (rc : RawConfig) (rf : RunFilter) (exp_name : String) :
    Except PyError Experiment :=
  match dictLookup rc.experiments exp_name with
  | some d => Except.ok { name := exp_name, exp_def := d, run_filter := rf }
  | none => Except.error (PyError.keyError exp_name)

/-- The `for exp_name in self._raw_config['experiments']` loop of the
`"all"` branch: compile each key in iteration order into `conf_defs`. -/
def compileAllLoop (rc : RawConfig) (rf : RunFilter) :
    List String → Except PyError (List (String × Experiment))
  | [] => Except.ok []
  | k :: rest => do
    let e ← _compile_experiment rc rf k
    let tail ← compileAllLoop rc rf rest
    Except.ok ((k, e) :: tail)

/-- `Configurator._compile_experiments`:
raise `ValueError("No experiment chosen.")` when `experiment_name()` is
falsy; compile every key of `experiments` when the resolved name is
`"all"`; otherwise require the name to be a key of `experiments`, raising
`ValueError("Requested experiment '%s' not available." % name)` when it
is not, and compile that single experiment. -/
def _compile_experiments (rc : RawConfig) (exp_name : Option String) (rf : RunFilter) :
    Except PyError (List (String × Experiment)) :=
  if strFalsy (experimentName exp_name rc) then
    Except.error (PyError.valueError "No experiment chosen.")
  else
    let n := (experimentName exp_name rc).getD ""
    if n = "all" then
      compileAllLoop rc rf (rc.experiments.map Prod.fst)
    else if (dictLookup rc.experiments n).isNone then
      Except.error (PyError.valueError ("Requested experiment '" ++ n ++ "' not available."))
    else do
      let e ← _compile_experiment rc rf n
      Except.ok [(n, e)]

/-- The `Configurator` state after `__init__`: the raw configuration, the
CLI experiment name, the parsed run filter, and the experiment map
`self._experiments` compiled once during construction. -/
structure Configurator where
  _raw_config : RawConfig
  _exp_name : Option String
  _run_filter : RunFilter
  _experiments : List (String × Experiment)
deriving DecidableEq

/-- The construction steps of `Configurator.__init__` that the claims
read: build the `_RunFilter` from the tokens, then compile the
experiments, storing the result in `self._experiments`; any raised error
propagates out of construction. -/
def Configurator.init (rc : RawConfig) (exp_name : Option String)
    (run_filter : Option (List String)) : Except PyError Configurator := do
  let rf ← RunFilter.init run_filter
  let exps ← _compile_experiments rc exp_name rf
  Except.ok { _raw_config := rc, _exp_name := exp_name, _run_filter := rf, _experiments := exps }

/-- Method form of `experiment_name` on the constructed state. -/
def Configurator.experiment_name (c : Configurator) : Option String :=
  experimentName c._exp_name c._raw_config

/-- `Configurator.get_experiments`: `return self._experiments`. -/
def Configurator.get_experiments (c : Configurator) : List (String × Experiment) :=
  c._experiments

/-- `Configurator.get_experiment(name)`: `return self._experiments[name]`,
a dict lookup raising `KeyError` for a missing key. -/
def Configurator.get_experiment (c : Configurator) (name : String) :
    Except PyError Experiment :=
  match dictLookup c._experiments name with
  | some e => Except.ok e
  | none => Except.error (PyError.keyError name)

/-! Concrete sample values used to evaluate the embedded code on
specific inputs. -/

/-- A sample benchmark identity: VM `V`, suite `S`, benchmark name `B`. -/
def bench0 : Bench := ⟨⟨"V"⟩, ⟨"S"⟩, "B"⟩

/-- A second sample benchmark identity. -/
def bench1 : Bench := ⟨⟨"JRuby"⟩, ⟨"Suite1"⟩, "Bench"⟩

/-- A configuration with a `standard_experiment` and no experiments. -/
def rcStd : RawConfig := { standard_experiment := some "std", experiments := [] }

/-- A configuration with a null `standard_experiment` and no experiments. -/
def rcNoStd : RawConfig := { standard_experiment := none, experiments := [] }

/-- A configuration with a single experiment `a`. -/
def rcOne : RawConfig := { standard_experiment := none, experiments := [("a", ⟨"d"⟩)] }

/-- A configuration with two experiments and `standard_experiment` `b`. -/
def rcTwo : RawConfig :=
  { standard_experiment := some "b", experiments := [("a", ⟨"da"⟩), ("b", ⟨"db"⟩)] }

/-- The `Configurator` produced from `rcTwo` with no CLI name and no
filter tokens. -/
def cTwo : Configurator :=
  { _raw_config := rcTwo, _exp_name := none, _run_filter := RunFilter.empty,
    _experiments := [("b", ⟨"b", ⟨"db"⟩, RunFilter.empty⟩)] }

/-- A configuration with two experiments and no `standard_experiment`. -/
def rcAll : RawConfig :=
  { standard_experiment := none, experiments := [("x", ⟨"dx"⟩), ("y", ⟨"dy"⟩)] }

/-- The `Configurator` produced from `rcAll` with CLI name `all`. -/
def cAll : Configurator :=
  { _raw_config := rcAll, _exp_name := some "all", _run_filter := RunFilter.empty,
    _experiments := [("x", ⟨"x", ⟨"dx"⟩, RunFilter.empty⟩),
                     ("y", ⟨"y", ⟨"dy"⟩, RunFilter.empty⟩)] }

/-- The `Configurator` produced from `rcOne` with CLI name `a`. -/
def cOne : Configurator :=
  { _raw_config := rcOne, _exp_name := some "a", _run_filter := RunFilter.empty,
    _experiments := [("a", ⟨"a", ⟨"d"⟩, RunFilter.empty⟩)] }

/-! Theorems. -/

/-- Inversion of a successful `Except` bind: if `x >>= f` returns `ok b`,
then `x` returned some `ok a` and `f a` returned `ok b`. -/
theorem except_bind_ok {ε α β : Type} (x : Except ε α) (f : α → Except ε β) (b : β)
    (h : (x >>= f) = Except.ok b) : ∃ a, x = Except.ok a ∧ f a = Except.ok b := by
  cases x with
  | error e => exact Except.noConfusion h
  | ok a => exact ⟨a, rfl, h⟩

/-- Bucket evaluation: `_RunFilter._match` is true iff the bucket is
empty or some matcher in it matches the benchmark. -/
theorem matchFilters_eq_true_iff (fs : List Matcher) (bench : Bench) :
    RunFilter.matchFilters fs bench = true ↔
      (fs = [] ∨ ∃ f ∈ fs, Matcher.matches f bench = true) := by
  cases fs with
  | nil => simp [RunFilter.matchFilters]
  | cons a l => simp [RunFilter.matchFilters, List.any_eq_true]

/-- Claim C1: for every benchmark identity, `_RunFilter.applies` returns
the logical AND of the two bucket results, where each bucket (VM
filters, suite/benchmark filters) evaluates to true if empty and
otherwise iff at least one of its matchers matches the benchmark. -/
theorem runFilter_applies_cross_category_and (rf : RunFilter) (bench : Bench) :
    RunFilter.applies rf bench = true ↔
      ((rf.vm_filters = [] ∨ ∃ f ∈ rf.vm_filters, Matcher.matches f bench = true) ∧
       (rf.suite_filters = [] ∨ ∃ f ∈ rf.suite_filters, Matcher.matches f bench = true)) := by
  rw [RunFilter.applies, Bool.and_eq_true, matchFilters_eq_true_iff, matchFilters_eq_true_iff]

/-- Claim C2, counterexample: the token `"vm"` is not of any of the
three accepted shapes, yet construction raises `IndexError` (from
`parts[1]`), which carries no message naming the token — not the
token-reporting error the claim requires. -/
theorem runFilter_bare_vm_token_raises_index_error :
    RunFilter.init (some ["vm"]) = Except.error PyError.indexError ∧
    PyError.indexError ≠ PyError.exception ("Unknown filter expression: " ++ "vm") :=
  ⟨by decide, by decide⟩

/-- Claim C2, amended: for every token whose first colon-part is not
`"vm"` and that is not `s:<suite>` (two parts) or
`s:<suite>:<benchmark>` (three parts), construction raises
`Exception("Unknown filter expression: " + token)`, whose message
contains the token verbatim; tokens whose first part is `"vm"` are
excluded because a bare `"vm"` raises an `IndexError` that does not
name the token. -/
theorem runFilter_unknown_token_error_names_token (t : String)
    (hvm : (splitColon t).headD "" ≠ "vm")
    (hs2 : ¬((splitColon t).headD "" = "s" ∧ (splitColon t).length = 2))
    (hs3 : ¬((splitColon t).headD "" = "s" ∧ (splitColon t).length = 3)) :
    RunFilter.init (some [t]) =
      Except.error (PyError.exception ("Unknown filter expression: " ++ t)) ∧
    ∃ pre, "Unknown filter expression: " ++ t = pre ++ t := by
  have haddtok : RunFilter.addToken RunFilter.empty t =
      Except.error (PyError.exception ("Unknown filter expression: " ++ t)) := by
    simp only [RunFilter.addToken]
    rw [if_neg hvm, if_neg hs2, if_neg hs3]
  refine ⟨?_, "Unknown filter expression: ", rfl⟩
  show (RunFilter.addToken RunFilter.empty t >>=
    fun rf2 => RunFilter.initLoop rf2 []) = _
  rw [haddtok]
  rfl

/-- Witness for the amended C2 at the concrete token `"badtoken"`. -/
theorem runFilter_unknown_token_error_names_token_witness :
    (RunFilter.init (some ["badtoken"]) =
      Except.error (PyError.exception ("Unknown filter expression: " ++ "badtoken")) ∧
    ∃ pre, "Unknown filter expression: " ++ "badtoken" = pre ++ "badtoken") :=
  runFilter_unknown_token_error_names_token "badtoken" (by decide) (by decide) (by decide)

/-- Claim C6: an absent (`None`) or empty filter-token list builds a
`_RunFilter` with both buckets empty, whose `applies` is true for every
benchmark identity. -/
theorem runFilter_empty_tokens_match_all (tokens : Option (List String))
    (h : tokens = none ∨ tokens = some []) :
    ∃ rf, RunFilter.init tokens = Except.ok rf ∧ rf.vm_filters = [] ∧
      rf.suite_filters = [] ∧ ∀ bench : Bench, RunFilter.applies rf bench = true := by
  refine ⟨RunFilter.empty, ?_, rfl, rfl, fun bench => rfl⟩
  rcases h with h | h <;> rw [h] <;> rfl

/-- Witness for C6 at the absent token list and a concrete benchmark. -/
theorem runFilter_empty_tokens_match_all_witness :
    ∃ rf, RunFilter.init none = Except.ok rf ∧ RunFilter.applies rf bench1 = true := by
  obtain ⟨rf, h1, _, _, h4⟩ := runFilter_empty_tokens_match_all none (Or.inl rfl)
  exact ⟨rf, h1, h4 bench1⟩

/-- Claim C7: a benchmark matcher built from `(suite name, benchmark
name)` matches iff the benchmark's suite name equals the stored suite
name and its own name equals the stored benchmark name; whenever it
matches, the suite matcher with the same suite name also matches
(refinement). -/
theorem benchmarkFilter_matches_iff (suite_name benchmark_name : String) (bench : Bench) :
    ((Matcher.benchmarkFilter suite_name benchmark_name).matches bench = true ↔
      (bench.suite.name = suite_name ∧ bench.name = benchmark_name)) ∧
    ((Matcher.benchmarkFilter suite_name benchmark_name).matches bench = true →
      (Matcher.suiteFilter suite_name).matches bench = true) := by
  constructor
  · by_cases h : bench.suite.name = suite_name <;>
      simp [Matcher.matches, suiteMatches, h]
  · intro hm
    by_cases h : bench.suite.name = suite_name <;>
      simp [Matcher.matches, suiteMatches, h] at hm ⊢

/-- Witness for C7 at a concrete matcher and benchmark. -/
theorem benchmarkFilter_matches_iff_witness :
    (Matcher.benchmarkFilter "S" "B").matches bench0 = true ∧
    (Matcher.suiteFilter "S").matches bench0 = true := by
  have h := benchmarkFilter_matches_iff "S" "B" bench0
  exact ⟨h.1.mpr (by decide), h.2 (h.1.mpr (by decide))⟩

/-- Claim C9: a token whose colon-split starts with `"vm"` and has a
second part parses successfully, appending a VM matcher holding only
that second part — any further parts are ignored and the arity of
vm-prefixed tokens is never checked. -/
theorem runFilter_vm_token_ignores_arity (t : String) (name : String) (rest : List String)
    (rf : RunFilter) (h : splitColon t = "vm" :: name :: rest) :
    RunFilter.addToken rf t =
      Except.ok { rf with vm_filters := rf.vm_filters ++ [Matcher.vmFilter name] } ∧
    RunFilter.init (some [t]) =
      Except.ok { vm_filters := [Matcher.vmFilter name], suite_filters := [] } := by
  have haddtok : ∀ rf0 : RunFilter, RunFilter.addToken rf0 t =
      Except.ok { rf0 with vm_filters := rf0.vm_filters ++ [Matcher.vmFilter name] } := by
    intro rf0
    simp [RunFilter.addToken, h]
  refine ⟨haddtok rf, ?_⟩
  show (RunFilter.addToken RunFilter.empty t >>=
    fun rf2 => RunFilter.initLoop rf2 []) = _
  rw [haddtok RunFilter.empty]
  rfl

/-- Witness for C9 at the concrete token `"vm:a:b:c"`. -/
theorem runFilter_vm_token_ignores_arity_witness :
    (RunFilter.addToken RunFilter.empty "vm:a:b:c" =
      Except.ok { vm_filters := [Matcher.vmFilter "a"], suite_filters := [] } ∧
    RunFilter.init (some ["vm:a:b:c"]) =
      Except.ok { vm_filters := [Matcher.vmFilter "a"], suite_filters := [] }) :=
  runFilter_vm_token_ignores_arity "vm:a:b:c" "a" ["b", "c"] RunFilter.empty (by decide)

/-- A key occurring among the keys of the association list has a
successful dict lookup. -/
theorem dictLookup_isSome_of_mem {α : Type} (m : List (String × α)) (k : String)
    (h : k ∈ m.map Prod.fst) : (dictLookup m k).isSome = true := by
  induction m with
  | nil => simp at h
  | cons p rest ih =>
    obtain ⟨k0, v⟩ := p
    rw [List.map_cons, List.mem_cons] at h
    by_cases hk : k0 = k
    · simp [dictLookup, hk]
    · rcases h with h | h
      · exact absurd h.symm hk
      · simp [dictLookup, hk, ih h]

/-- The `"all"` loop succeeds on any list of keys present in the
`experiments` mapping and compiles them in order, one entry per key. -/
theorem compileAllLoop_ok (rc : RawConfig) (rf : RunFilter) (ks : List String)
    (h : ∀ k ∈ ks, (dictLookup rc.experiments k).isSome = true) :
    ∃ exps, compileAllLoop rc rf ks = Except.ok exps ∧ exps.map Prod.fst = ks := by
  induction ks with
  | nil => exact ⟨[], rfl, rfl⟩
  | cons k rest ih =>
    obtain ⟨exps, hloop, hmap⟩ := ih (fun x hx => h x (List.mem_cons_of_mem _ hx))
    have hk := h k (List.mem_cons_self _ _)
    obtain ⟨d, hd⟩ := Option.isSome_iff_exists.mp hk
    refine ⟨(k, ⟨k, d, rf⟩) :: exps, ?_, by simp [hmap]⟩
    show (_compile_experiment rc rf k >>= fun e =>
      compileAllLoop rc rf rest >>= fun tail => Except.ok ((k, e) :: tail)) = _
    rw [_compile_experiment, hd, hloop]
    rfl

/-- Claim C3: `experiment_name()` returns the CLI-supplied name when it
is truthy and otherwise the configuration's `standard_experiment`; when
the resolved name is falsy (no name from either source), experiment
compilation fails with `ValueError("No experiment chosen.")` and
compiles nothing. -/
theorem configurator_experiment_name_fallback (rc : RawConfig) (en : Option String)
    (rf : RunFilter) :
    (∀ s : String, en = some s → s ≠ "" → experimentName en rc = some s) ∧
    (strFalsy en = true → experimentName en rc = rc.standard_experiment) ∧
    (strFalsy (experimentName en rc) = true →
      _compile_experiments rc en rf = Except.error (PyError.valueError "No experiment chosen.")) := by
  refine ⟨?_, ?_, ?_⟩
  · intro s hs hne
    subst hs
    simp [experimentName, hne]
  · intro h
    cases en with
    | none => rfl
    | some s =>
      simp only [strFalsy, decide_eq_true_eq] at h
      simp [experimentName, h]
  · intro h
    unfold _compile_experiments
    rw [if_pos h]

/-- Witness for C3 at concrete configurations. -/
theorem configurator_experiment_name_fallback_witness :
    experimentName (some "exp") rcStd = some "exp" ∧
    experimentName none rcStd = some "std" ∧
    _compile_experiments rcNoStd none RunFilter.empty =
      Except.error (PyError.valueError "No experiment chosen.") := by
  refine ⟨(configurator_experiment_name_fallback rcStd (some "exp") RunFilter.empty).1
    "exp" rfl (by decide), ?_, ?_⟩
  · exact (configurator_experiment_name_fallback rcStd none RunFilter.empty).2.1 (by decide)
  · exact (configurator_experiment_name_fallback rcNoStd none RunFilter.empty).2.2 (by decide)

/-- Claim C4: when the resolved experiment name is the literal `"all"`
and construction succeeds, the compiled map handed out by
`get_experiments()` has exactly one entry per key of the `experiments`
mapping, in iteration order, hence exactly its size. -/
theorem configurator_all_compiles_every_key (rc : RawConfig) (en : Option String)
    (tokens : Option (List String)) (c : Configurator)
    (hname : experimentName en rc = some "all")
    (hinit : Configurator.init rc en tokens = Except.ok c) :
    (Configurator.get_experiments c).map Prod.fst = rc.experiments.map Prod.fst ∧
    (Configurator.get_experiments c).length = rc.experiments.length := by
  unfold Configurator.init at hinit
  obtain ⟨rf, hrf, h2⟩ := except_bind_ok _ _ _ hinit
  obtain ⟨exps, hexps, h3⟩ := except_bind_ok _ _ _ h2
  simp only [Except.ok.injEq] at h3
  unfold _compile_experiments at hexps
  rw [hname] at hexps
  simp only [strFalsy, decide_eq_true_eq, Option.getD_some, if_true, if_false] at hexps
  rw [if_neg (show ¬("all" = "") by decide)] at hexps
  obtain ⟨exps2, hloop, hmap⟩ := compileAllLoop_ok rc rf (rc.experiments.map Prod.fst)
    (fun k hk => dictLookup_isSome_of_mem rc.experiments k hk)
  rw [hloop, Except.ok.injEq] at hexps
  subst hexps
  have hget : Configurator.get_experiments c = exps2 := by
    rw [← h3]; rfl
  constructor
  · rw [hget, hmap]
  · rw [hget]
    have hlen := congrArg List.length hmap
    simpa using hlen

/-- Witness for C4 at a concrete two-experiment configuration. -/
theorem configurator_all_compiles_every_key_witness :
    (Configurator.get_experiments cAll).map Prod.fst = rcAll.experiments.map Prod.fst ∧
    (Configurator.get_experiments cAll).length = rcAll.experiments.length :=
  configurator_all_compiles_every_key rcAll (some "all") none cAll (by decide) (by decide)

/-- Claim C5: when the resolved experiment name is neither `"all"` nor a
key of the `experiments` mapping, `_compile_experiments` raises a
`ValueError` whose message contains the requested name, and returns no
compiled experiment (the error is raised before anything is compiled). -/
theorem configurator_missing_experiment_error (rc : RawConfig) (en : Option String)
    (rf : RunFilter) (s : String)
    (hname : experimentName en rc = some s) (hall : s ≠ "all")
    (habsent : dictLookup rc.experiments s = none) :
    ∃ msg, _compile_experiments rc en rf = Except.error (PyError.valueError msg) ∧
      ∃ pre post, msg = pre ++ s ++ post := by
  by_cases hs : s = ""
  · subst hs
    refine ⟨"No experiment chosen.", ?_, "", "No experiment chosen.", rfl⟩
    unfold _compile_experiments
    rw [hname]
    rfl
  · refine ⟨"Requested experiment '" ++ s ++ "' not available.", ?_,
      "Requested experiment '", "' not available.", rfl⟩
    unfold _compile_experiments
    rw [hname]
    simp only [strFalsy, decide_eq_true_eq, Option.getD_some]
    rw [if_neg (by simpa using hs), if_neg hall, if_pos (by simp [habsent])]

/-- Witness for C5 at a concrete absent experiment name. -/
theorem configurator_missing_experiment_error_witness :
    ∃ msg, _compile_experiments rcOne (some "zzz") RunFilter.empty =
      Except.error (PyError.valueError msg) ∧ ∃ pre post, msg = pre ++ "zzz" ++ post :=
  configurator_missing_experiment_error rcOne (some "zzz") RunFilter.empty "zzz"
    (by decide) (by decide) (by decide)

/-- Claim C8: the experiment map is compiled exactly once, during
construction; `get_experiments()` returns that stored map, so any number
of calls yields the very same compiled mapping (in this pure embedding,
returning the stored field unchanged is the counterpart of Python's
object identity). -/
theorem configurator_single_compile (rc : RawConfig) (en : Option String)
    (tokens : Option (List String)) (c : Configurator)
    (hinit : Configurator.init rc en tokens = Except.ok c) :
    ∃ rf exps, RunFilter.init tokens = Except.ok rf ∧
      _compile_experiments rc en rf = Except.ok exps ∧
      Configurator.get_experiments c = exps ∧
      ∀ n : Nat, (List.replicate n c).map Configurator.get_experiments =
        List.replicate n exps := by
  unfold Configurator.init at hinit
  obtain ⟨rf, hrf, h2⟩ := except_bind_ok _ _ _ hinit
  obtain ⟨exps, hexps, h3⟩ := except_bind_ok _ _ _ h2
  simp only [Except.ok.injEq] at h3
  have hget : Configurator.get_experiments c = exps := by rw [← h3]; rfl
  refine ⟨rf, exps, hrf, hexps, hget, fun n => ?_⟩
  rw [List.map_replicate, hget]

/-- Witness for C8 at a concrete configuration. -/
theorem configurator_single_compile_witness :
    ∃ rf exps, RunFilter.init none = Except.ok rf ∧
      _compile_experiments rcTwo none rf = Except.ok exps ∧
      Configurator.get_experiments cTwo = exps ∧
      ∀ n : Nat, (List.replicate n cTwo).map Configurator.get_experiments =
        List.replicate n exps :=
  configurator_single_compile rcTwo none none cTwo (by decide)

/-- Claim C10: `get_experiment(name)` with a name that is not a key of
the compiled experiment map raises `KeyError(name)` rather than
returning any experiment. -/
theorem configurator_get_experiment_missing_key (c : Configurator) (name : String)
    (h : dictLookup c._experiments name = none) :
    Configurator.get_experiment c name = Except.error (PyError.keyError name) := by
  unfold Configurator.get_experiment
  rw [h]

/-- Witness for C10 at a concrete missing key. -/
theorem configurator_get_experiment_missing_key_witness :
    Configurator.get_experiment cOne "missing" = Except.error (PyError.keyError "missing") :=
  configurator_get_experiment_missing_key cOne "missing" (by decide)
